import Mathlib

/-!
Shallow embedding of the probe orchestration and reporting core of the
Vikranta Smart Tourist Safety System test scripts
(`comprehensive-health-check.js`, `test-all-features.js`,
`test-complete-flow.js`).

The scripts drive a web service over HTTP and aggregate boolean probe
outcomes into reports.  The embedding models:
  - the transport collaborator as a value of type `Transport (Nat × String)`
    (either a received response `(statusCode, rawBody)` or a connection
    error), supplied per endpoint by a `Backend` oracle;
  - `JSON.parse` as a function `Parse : String → Option JsonVal`, where
    `JsonVal` carries exactly the fields the scripts read
    (`success`, `uniqueId`, `token`);
  - the module-level mutable variables `testUniqueId` / `authToken`
    (the Run Context) as a record `Ctx` threaded through the probes;
  - each probe as a pure function returning its recorded boolean outcome,
    the updated context, the list of network calls it issued, and its
    console output lines.  The one probe whose awaited promise can never
    settle (the comprehensive document-upload probe, whose submit-error
    callback lacks a resolve) returns an `Option`, with `none` for the
    hanging path.
-/

namespace Vikranta

/-- Result of one transport attempt: a received response (of any status),
or a connection-level error, mirroring the resolve/`req.on('error')` split
of the Node `http.request` wrappers. -/
inductive Transport (α : Type) where
  | ok (a : α)
  | err (msg : String)
  deriving Repr, DecidableEq

/-- The JSON fields the scripts actually read from parsed response bodies. -/
structure JsonVal where
  success : Bool := false
  uniqueId : Option String := none
  token : Option String := none
  deriving Repr, DecidableEq

/-- `JSON.parse`: either yields structured data or fails (throws). -/
abbrev Parse := String → Option JsonVal

/-- The `data` field of a resolved response: the parsed object when
`JSON.parse` succeeded, otherwise the raw response text
(`resolve({ status, data: responseData, raw: responseData })`). -/
inductive RespData where
  | parsed (j : JsonVal)
  | rawStr (s : String)
  deriving Repr, DecidableEq

/-- JS `response.data.success`: reading `.success` off a raw string is
`undefined`, hence falsy. -/
def RespData.successB : RespData → Bool
  | .parsed j => j.success
  | .rawStr _ => false

/-- JS `response.data.uniqueId`: `undefined` (absent) on a raw string. -/
def RespData.uniqueIdF : RespData → Option String
  | .parsed j => j.uniqueId
  | .rawStr _ => none

/-- JS `response.data.token`: `undefined` (absent) on a raw string. -/
def RespData.tokenF : RespData → Option String
  | .parsed j => j.token
  | .rawStr _ => none

/-- Resolved value of `makeRequest` in `comprehensive-health-check.js`:
`{ status, data, raw }`. -/
structure HCResponse where
  status : Nat
  data : RespData
  raw : String
  deriving Repr, DecidableEq

/-- `makeRequest` of `comprehensive-health-check.js` (and, minus the `raw`
field, of `test-all-features.js`): a connection error rejects; a received
response always resolves — on `JSON.parse` failure it resolves with the raw
body kept in both `data` and `raw`. -/
def makeRequest (parse : Parse) : Transport (Nat × String) → Except String HCResponse
  | .err m => .error m
  | .ok (st, body) =>
    match parse body with
    | some j => .ok ⟨st, .parsed j, body⟩
    | none => .ok ⟨st, .rawStr body, body⟩

/-- Resolved value of `makeRequest` in `test-complete-flow.js`. -/
structure FlowResponse where
  status : Nat
  data : JsonVal
  deriving Repr, DecidableEq

/-- `makeRequest` of `test-complete-flow.js`: unlike the other two scripts,
a `JSON.parse` failure rejects with
`new Error('Failed to parse response: ' + responseData)`. -/
def makeRequestFlow (parse : Parse) : Transport (Nat × String) → Except String FlowResponse
  | .err m => .error m
  | .ok (st, body) =>
    match parse body with
    | some j => .ok ⟨st, j⟩
    | none => .error ("Failed to parse response: " ++ body)

/-- Resolved value of `makeHTTPSRequest`: `protocol` is `some "HTTP"`
exactly when the insecure fallback produced the response. -/
structure PageResponse where
  status : Nat
  data : String
  protocol : Option String
  deriving Repr, DecidableEq

/-- `makeHTTPSRequest` of `comprehensive-health-check.js`: attempt the
secure transport; any received response resolves as-is (no `protocol`
mark).  Only a connection-level error on the secure attempt triggers a
single insecure retry of the same path, whose response is marked
`protocol: 'HTTP'`; a second connection error rejects. -/
def makeHTTPSRequest (secure insecure : Transport (Nat × String)) :
    Except String PageResponse :=
  match secure with
  | .ok (st, d) => .ok ⟨st, d, none⟩
  | .err _ =>
    match insecure with
    | .ok (st, d) => .ok ⟨st, d, some "HTTP"⟩
    | .err m2 => .error m2

/-- JS truthiness of the context variables (`null`/`undefined` and the
empty string are falsy). -/
def truthy : Option String → Bool
  | none => false
  | some s => !s.isEmpty

/-- JS template interpolation of a possibly-null variable into a URL. -/
def idStr : Option String → String
  | none => "null"
  | some s => s

/-- Whether the character list `s` starts with `pat`. -/
def strStartsWith : List Char → List Char → Bool
  | _, [] => true
  | [], _ :: _ => false
  | a :: as, b :: bs => a == b && strStartsWith as bs

/-- Whether `pat` occurs as a contiguous run inside `s`. -/
def strHasSub (s pat : List Char) : Bool :=
  match s with
  | [] => pat.isEmpty
  | c :: rest => strStartsWith (c :: rest) pat || strHasSub rest pat

/-- JS `stdout.includes(pat)` / `html.includes(keyword)`. -/
def containsStr (s pat : String) : Bool :=
  strHasSub s.data pat.data

/-- One network call, identified by endpoint and the context-derived
arguments interpolated into it. -/
inductive Call where
  | dockerPs
  | health
  | register (name : String)
  | touristInfo (id : String)
  | uploadDocument (id : String)
  | documents (id : String)
  | authorityLogin
  | pending (auth : Option String)
  | authorityVerify (id : String) (token : String)
  | qrcode (id : String)
  | pvcCard (id : String)
  | page (path : String) (secure : Bool)
  deriving Repr, DecidableEq

/-- The backend / transport oracle: what each issued call comes back with. -/
abbrev Backend := Call → Transport (Nat × String)

/-- The Run Context: the module-level variables `testUniqueId` and
`authToken` shared by all stages of one script run. -/
structure Ctx where
  testUniqueId : Option String := none
  authToken : Option String := none
  deriving Repr, DecidableEq

/-- Result of executing one probe: the boolean recorded in the stage
results object, the (possibly updated) Run Context, the network calls
issued on behalf of the probe, and its console lines. -/
structure POut where
  ok : Bool
  ctx : Ctx
  calls : List Call
  logs : List String
  deriving Repr, DecidableEq

/-- Console line of the dependency-unmet skip branches gated on
`testUniqueId` in `comprehensive-health-check.js`. -/
def skipNoIdLog : String := "   ⏭️  Skipped (no test ID)"

/-- Console line of the verification skip branch gated on
`testUniqueId && authToken`. -/
def skipNoAuthLog : String := "   ⏭️  Skipped (no auth token or test ID)"

/-! ## comprehensive-health-check.js: probes -/

/-- Infrastructure test 1 (`docker-compose ps` through `exec`): passes when
the command succeeds and its stdout contains both `Up` and `healthy`. -/
def dockerProbe (B : Backend) (ctx : Ctx) : POut :=
  match B .dockerPs with
  | .ok (_, out) =>
    if containsStr out "Up" && containsStr out "healthy" then
      ⟨true, ctx, [.dockerPs], ["   ✅ Docker containers running and healthy"]⟩
    else
      ⟨false, ctx, [.dockerPs], ["   ❌ Docker containers issue"]⟩
  | .err _ => ⟨false, ctx, [.dockerPs], ["   ❌ Docker containers issue"]⟩

/-- Infrastructure test 2 (`GET /api/health`): any received response sets
`results.backend = true` — the non-200 branch comments "Still consider it
working"; only a transport error records `false`. -/
def backendHealthProbe (parse : Parse) (B : Backend) (ctx : Ctx) : POut :=
  match makeRequest parse (B .health) with
  | .ok r =>
    if r.status == 200 then
      ⟨true, ctx, [.health], ["   ✅ Backend API responding"]⟩
    else
      ⟨true, ctx, [.health], ["   ⚠️  Backend API responding but no health endpoint"]⟩
  | .error _ => ⟨false, ctx, [.health], ["   ❌ Backend API not accessible"]⟩

/-- Infrastructure test 3 (`POST /api/tourist/register` with the health
check payload): on `status === 200 && data.success` stores
`data.uniqueId` into `testUniqueId`. -/
def blockchainProbe (parse : Parse) (B : Backend) (ctx : Ctx) : POut :=
  match makeRequest parse (B (.register "Health Check Tourist")) with
  | .ok r =>
    if r.status == 200 && r.data.successB then
      ⟨true, { ctx with testUniqueId := r.data.uniqueIdF },
        [.register "Health Check Tourist"], ["   ✅ Blockchain connected and responsive"]⟩
    else
      ⟨false, ctx, [.register "Health Check Tourist"], ["   ❌ Blockchain connection issue"]⟩
  | .error _ =>
    ⟨false, ctx, [.register "Health Check Tourist"], ["   ❌ Blockchain not accessible"]⟩

/-- Calls issued by one `makeHTTPSRequest`: the secure attempt always, the
insecure one only after a secure connection failure. -/
def pageCalls (path : String) (secure : Transport (Nat × String)) : List Call :=
  match secure with
  | .ok _ => [.page path true]
  | .err _ => [.page path true, .page path false]

/-- A page-fetch probe of `comprehensive-health-check.js`: fetch `path`
through `makeHTTPSRequest` and require `status === 200` plus the keyword
in the body. -/
def pageProbe (B : Backend) (path keyword : String) (ctx : Ctx) : POut :=
  let secure := B (.page path true)
  match makeHTTPSRequest secure (B (.page path false)) with
  | .ok r =>
    if r.status == 200 && containsStr r.data keyword then
      ⟨true, ctx, pageCalls path secure, []⟩
    else
      ⟨false, ctx, pageCalls path secure, []⟩
  | .error _ => ⟨false, ctx, pageCalls path secure, []⟩

/-- Core test 1 (`POST /api/tourist/register`): on success stores
`response.data.uniqueId` into `testUniqueId` (unconditionally — whatever
the field holds). -/
def registrationProbe (parse : Parse) (B : Backend) (ctx : Ctx) : POut :=
  match makeRequest parse (B (.register "Feature Test Tourist")) with
  | .ok r =>
    if r.status == 200 && r.data.successB then
      ⟨true, { ctx with testUniqueId := r.data.uniqueIdF },
        [.register "Feature Test Tourist"], ["   ✅ Registration successful"]⟩
    else
      ⟨false, ctx, [.register "Feature Test Tourist"], ["   ❌ Registration failed"]⟩
  | .error m =>
    ⟨false, ctx, [.register "Feature Test Tourist"], ["   ❌ Registration error: " ++ m]⟩

/-- Core test 2 (`GET /api/tourist/info/:id`), gated on `if (testUniqueId)`:
with the dependency absent it records `false` with a skip line and issues
no call. -/
def infoRetrievalProbe (parse : Parse) (B : Backend) (ctx : Ctx) : POut :=
  if truthy ctx.testUniqueId then
    let id := ctx.testUniqueId.getD ""
    match makeRequest parse (B (.touristInfo id)) with
    | .ok r =>
      if r.status == 200 && r.data.successB then
        ⟨true, ctx, [.touristInfo id], ["   ✅ Info retrieval working"]⟩
      else
        ⟨false, ctx, [.touristInfo id], ["   ❌ Info retrieval failed"]⟩
    | .error m => ⟨false, ctx, [.touristInfo id], ["   ❌ Info retrieval error: " ++ m]⟩
  else ⟨false, ctx, [], [skipNoIdLog]⟩

/-- Core test 3 (multipart `form.submit` to `/api/tourist/upload-document`
with an in-memory Buffer), gated on `if (testUniqueId)`.  The awaited
promise is resolved only inside the `res.on('end')` handler: the
`form.submit` error callback logs and records `false` but never calls
`resolve()`, so on a multipart transport error the `await` never settles
and the rest of the run hangs — modelled as `none`.  When a response body
is received the probe resolves: a body that fails `JSON.parse` records
`false`; otherwise `result.success` decides. -/
def documentUploadProbe (parse : Parse) (B : Backend) (ctx : Ctx) : Option POut :=
  if truthy ctx.testUniqueId then
    let id := ctx.testUniqueId.getD ""
    match B (.uploadDocument id) with
    | .err _ => none
    | .ok (_, body) =>
      match parse body with
      | some j =>
        if j.success then
          some ⟨true, ctx, [.uploadDocument id], ["   ✅ Document upload working"]⟩
        else
          some ⟨false, ctx, [.uploadDocument id], ["   ❌ Document upload failed"]⟩
      | none => some ⟨false, ctx, [.uploadDocument id], ["   ❌ Document upload parse error"]⟩
  else some ⟨false, ctx, [], [skipNoIdLog]⟩

/-- Core test 4 (`GET /api/tourist/documents/:id`), gated on
`if (testUniqueId)`: only `status === 200` is checked. -/
def documentRetrievalProbe (parse : Parse) (B : Backend) (ctx : Ctx) : POut :=
  if truthy ctx.testUniqueId then
    let id := ctx.testUniqueId.getD ""
    match makeRequest parse (B (.documents id)) with
    | .ok r =>
      if r.status == 200 then
        ⟨true, ctx, [.documents id], ["   ✅ Document retrieval working"]⟩
      else
        ⟨false, ctx, [.documents id], ["   ❌ Document retrieval failed"]⟩
    | .error m => ⟨false, ctx, [.documents id], ["   ❌ Document retrieval error: " ++ m]⟩
  else ⟨false, ctx, [], [skipNoIdLog]⟩

/-- Authority test 1 (`POST /api/authority/login`): on success stores
`response.data.token` into `authToken`. -/
def authorityLoginProbe (parse : Parse) (B : Backend) (ctx : Ctx) : POut :=
  match makeRequest parse (B .authorityLogin) with
  | .ok r =>
    if r.status == 200 && r.data.successB then
      ⟨true, { ctx with authToken := r.data.tokenF },
        [.authorityLogin], ["   ✅ Authority login working"]⟩
    else
      ⟨false, ctx, [.authorityLogin], ["   ❌ Authority login failed"]⟩
  | .error m => ⟨false, ctx, [.authorityLogin], ["   ❌ Authority login error: " ++ m]⟩

/-- Authority test 2 (`GET /api/authority/pending`): the Bearer header is
attached only when `authToken` is truthy; only `status === 200` is checked
and there is no dependency gate. -/
def pendingListProbe (parse : Parse) (B : Backend) (ctx : Ctx) : POut :=
  let auth := if truthy ctx.authToken then ctx.authToken else none
  match makeRequest parse (B (.pending auth)) with
  | .ok r =>
    if r.status == 200 then
      ⟨true, ctx, [.pending auth], ["   ✅ Pending list accessible"]⟩
    else
      ⟨false, ctx, [.pending auth], ["   ❌ Pending list failed"]⟩
  | .error m => ⟨false, ctx, [.pending auth], ["   ❌ Pending list error: " ++ m]⟩

/-- Authority test 3 (`POST /api/authority/verify`), gated on
`if (testUniqueId && authToken)`. -/
def verificationProbe (parse : Parse) (B : Backend) (ctx : Ctx) : POut :=
  if truthy ctx.testUniqueId && truthy ctx.authToken then
    let id := ctx.testUniqueId.getD ""
    let tok := ctx.authToken.getD ""
    match makeRequest parse (B (.authorityVerify id tok)) with
    | .ok r =>
      if r.status == 200 && r.data.successB then
        ⟨true, ctx, [.authorityVerify id tok], ["   ✅ Tourist verification working"]⟩
      else
        ⟨false, ctx, [.authorityVerify id tok], ["   ❌ Tourist verification failed"]⟩
    | .error m =>
      ⟨false, ctx, [.authorityVerify id tok], ["   ❌ Tourist verification error: " ++ m]⟩
  else ⟨false, ctx, [], [skipNoAuthLog]⟩

/-- Advanced test 1 (`GET /api/tourist/qrcode/:id`), gated on
`if (testUniqueId)`. -/
def qrCodeProbe (parse : Parse) (B : Backend) (ctx : Ctx) : POut :=
  if truthy ctx.testUniqueId then
    let id := ctx.testUniqueId.getD ""
    match makeRequest parse (B (.qrcode id)) with
    | .ok r =>
      if r.status == 200 && r.data.successB then
        ⟨true, ctx, [.qrcode id], ["   ✅ QR code generation working"]⟩
      else
        ⟨false, ctx, [.qrcode id], ["   ❌ QR code generation failed"]⟩
    | .error m => ⟨false, ctx, [.qrcode id], ["   ❌ QR code error: " ++ m]⟩
  else ⟨false, ctx, [], [skipNoIdLog]⟩

/-- Advanced test 2 (`GET /api/tourist/pvc-card/:id`), gated on
`if (testUniqueId)`: only `status === 200` is checked. -/
def pvcCardProbe (parse : Parse) (B : Backend) (ctx : Ctx) : POut :=
  if truthy ctx.testUniqueId then
    let id := ctx.testUniqueId.getD ""
    match makeRequest parse (B (.pvcCard id)) with
    | .ok r =>
      if r.status == 200 then
        ⟨true, ctx, [.pvcCard id], ["   ✅ PVC card generation working"]⟩
      else
        ⟨false, ctx, [.pvcCard id], ["   ❌ PVC card generation failed"]⟩
    | .error m => ⟨false, ctx, [.pvcCard id], ["   ❌ PVC card error: " ++ m]⟩
  else ⟨false, ctx, [], [skipNoIdLog]⟩

/-! ## comprehensive-health-check.js: stages -/

/-- Stage report of `testInfrastructure`. -/
structure InfraReport where
  docker : Bool
  backend : Bool
  blockchain : Bool
  frontend : Bool
  deriving Repr, DecidableEq

/-- Stage report of `testCoreFeatures`. -/
structure CoreReport where
  registration : Bool
  infoRetrieval : Bool
  documentUpload : Bool
  documentRetrieval : Bool
  deriving Repr, DecidableEq

/-- Stage report of `testAuthorityFeatures`. -/
structure AuthReport where
  authorityLogin : Bool
  pendingList : Bool
  verification : Bool
  deriving Repr, DecidableEq

/-- Stage report of `testAdvancedFeatures`. -/
structure AdvReport where
  qrCode : Bool
  pvcCard : Bool
  deriving Repr, DecidableEq

/-- Stage report of `testFrontendPages` (six fixed pages). -/
structure PagesReport where
  homepage : Bool
  portal : Bool
  touristAuth : Bool
  dashboard : Bool
  authorityLoginPage : Bool
  authorityPanel : Bool
  deriving Repr, DecidableEq

/-- Output of one stage: its report, the Run Context it hands to the next
stage, and the calls and console lines of its probes in order. -/
structure StageOut (ρ : Type) where
  report : ρ
  ctx : Ctx
  calls : List Call
  logs : List String
  deriving Repr, DecidableEq

/-- `testInfrastructure`: docker, backend health, blockchain registration
(which may populate `testUniqueId`), frontend page. -/
def testInfrastructure (parse : Parse) (B : Backend) (ctx : Ctx) : StageOut InfraReport :=
  let r1 := dockerProbe B ctx
  let r2 := backendHealthProbe parse B r1.ctx
  let r3 := blockchainProbe parse B r2.ctx
  let r4 := pageProbe B "/tourist-auth.html" "Tourist Portal" r3.ctx
  ⟨⟨r1.ok, r2.ok, r3.ok, r4.ok⟩, r4.ctx,
    r1.calls ++ r2.calls ++ r3.calls ++ r4.calls,
    r1.logs ++ r2.logs ++ r3.logs ++ r4.logs⟩

/-- `testCoreFeatures`: registration then three probes gated on
`testUniqueId`.  If the upload probe hits its never-resolving error path
the stage never returns (`none`): test 4 does not run and no Stage Report
is produced. -/
def testCoreFeatures (parse : Parse) (B : Backend) (ctx : Ctx) : Option (StageOut CoreReport) :=
  let r1 := registrationProbe parse B ctx
  let r2 := infoRetrievalProbe parse B r1.ctx
  match documentUploadProbe parse B r2.ctx with
  | none => none
  | some r3 =>
    let r4 := documentRetrievalProbe parse B r3.ctx
    some ⟨⟨r1.ok, r2.ok, r3.ok, r4.ok⟩, r4.ctx,
      r1.calls ++ r2.calls ++ r3.calls ++ r4.calls,
      r1.logs ++ r2.logs ++ r3.logs ++ r4.logs⟩

/-- `testAuthorityFeatures`: login (which may populate `authToken`),
pending list, verification gated on both context keys. -/
def testAuthorityFeatures (parse : Parse) (B : Backend) (ctx : Ctx) : StageOut AuthReport :=
  let r1 := authorityLoginProbe parse B ctx
  let r2 := pendingListProbe parse B r1.ctx
  let r3 := verificationProbe parse B r2.ctx
  ⟨⟨r1.ok, r2.ok, r3.ok⟩, r3.ctx,
    r1.calls ++ r2.calls ++ r3.calls,
    r1.logs ++ r2.logs ++ r3.logs⟩

/-- `testAdvancedFeatures`: QR code and PVC card, both gated on
`testUniqueId`. -/
def testAdvancedFeatures (parse : Parse) (B : Backend) (ctx : Ctx) : StageOut AdvReport :=
  let r1 := qrCodeProbe parse B ctx
  let r2 := pvcCardProbe parse B r1.ctx
  ⟨⟨r1.ok, r2.ok⟩, r2.ctx, r1.calls ++ r2.calls, r1.logs ++ r2.logs⟩

/-- `testFrontendPages`: the six fixed page checks. -/
def testFrontendPages (B : Backend) (ctx : Ctx) : StageOut PagesReport :=
  let r1 := pageProbe B "/" "VIKRANTA" ctx
  let r2 := pageProbe B "/portal.html" "Tourist Registry Portal" r1.ctx
  let r3 := pageProbe B "/tourist-auth.html" "Tourist Portal" r2.ctx
  let r4 := pageProbe B "/dashboard-simple.html" "Tourist Dashboard" r3.ctx
  let r5 := pageProbe B "/authority-login.html" "Authority Login" r4.ctx
  let r6 := pageProbe B "/authority-panel.html" "Authority Dashboard" r5.ctx
  ⟨⟨r1.ok, r2.ok, r3.ok, r4.ok, r5.ok, r6.ok⟩, r6.ctx,
    r1.calls ++ r2.calls ++ r3.calls ++ r4.calls ++ r5.calls ++ r6.calls,
    r1.logs ++ r2.logs ++ r3.logs ++ r4.logs ++ r5.logs ++ r6.logs⟩

/-! ## comprehensive-health-check.js: final report and orchestrator -/

/-- Ordered outcome list of a stage report (iteration order of
`Object.entries(results)`). -/
def InfraReport.toList (r : InfraReport) : List Bool :=
  [r.docker, r.backend, r.blockchain, r.frontend]

/-- Ordered outcome list of the core stage. -/
def CoreReport.toList (r : CoreReport) : List Bool :=
  [r.registration, r.infoRetrieval, r.documentUpload, r.documentRetrieval]

/-- Ordered outcome list of the authority stage. -/
def AuthReport.toList (r : AuthReport) : List Bool :=
  [r.authorityLogin, r.pendingList, r.verification]

/-- Ordered outcome list of the advanced stage. -/
def AdvReport.toList (r : AdvReport) : List Bool :=
  [r.qrCode, r.pvcCard]

/-- Ordered outcome list of the frontend pages stage. -/
def PagesReport.toList (r : PagesReport) : List Bool :=
  [r.homepage, r.portal, r.touristAuth, r.dashboard, r.authorityLoginPage, r.authorityPanel]

/-- Number of passing outcomes (`if (passed) passedTests++`). -/
def countTrue (l : List Bool) : Nat := (l.filter id).length

/-- Qualitative tier of `generateFinalReport`:
`passedTests >= totalTests * 0.8` prints the EXCELLENT line, else
`passedTests >= totalTests * 0.6` the GOOD line, else NEEDS ATTENTION.
The numeric literals are embedded exactly, over ℚ. -/
def generateTier (passed total : Nat) : String :=
  if ((total : ℚ) * (8 / 10) ≤ (passed : ℚ)) then "EXCELLENT"
  else if ((total : ℚ) * (6 / 10) ≤ (passed : ℚ)) then "GOOD"
  else "NEEDS ATTENTION"

/-- The Final Report: aggregate counters over every recorded outcome of
every stage plus the qualitative tier. -/
structure FinalReport where
  total : Nat
  passed : Nat
  tier : String
  deriving Repr, DecidableEq

/-- `generateFinalReport`: walks all five stage reports, counts
`totalTests` and `passedTests` over every recorded outcome, and computes
the tier. -/
def generateFinalReport (i : InfraReport) (c : CoreReport) (a : AuthReport)
    (adv : AdvReport) (p : PagesReport) : FinalReport :=
  let outcomes := i.toList ++ c.toList ++ a.toList ++ adv.toList ++ p.toList
  ⟨outcomes.length, countTrue outcomes, generateTier (countTrue outcomes) outcomes.length⟩

/-- Whether a stage execution completed without throwing. -/
def isOkE {α : Type} : Except String α → Bool
  | .ok _ => true
  | .error _ => false

/-- `runComprehensiveHealthCheck`: the five stage executions are awaited
in order inside a single `try`; `generateFinalReport` runs only after all
five, and the `catch` merely logs `Health check failed` — it produces no
report.  Each argument is the result of one stage execution, `.error` for
an uncaught throw. -/
def runOrchestrator (s1 : Except String (StageOut InfraReport))
    (s2 : Except String (StageOut CoreReport))
    (s3 : Except String (StageOut AuthReport))
    (s4 : Except String (StageOut AdvReport))
    (s5 : Except String (StageOut PagesReport)) : Option FinalReport :=
  match s1, s2, s3, s4, s5 with
  | .ok r1, .ok r2, .ok r3, .ok r4, .ok r5 =>
    some (generateFinalReport r1.report r2.report r3.report r4.report r5.report)
  | _, _, _, _, _ => none

/-- The composed run over a backend: stages in fixed order, the Run
Context threaded between them.  None of the stage bodies modelled here
can throw, so each orchestrator slot is `.ok` — but if the core stage
hangs on the upload probe's never-resolving error path, the later stages
never run and no report is produced. -/
def runComprehensiveHealthCheck (parse : Parse) (B : Backend) : Option FinalReport :=
  let s1 := testInfrastructure parse B {}
  match testCoreFeatures parse B s1.ctx with
  | none => none
  | some s2 =>
    let s3 := testAuthorityFeatures parse B s2.ctx
    let s4 := testAdvancedFeatures parse B s3.ctx
    let s5 := testFrontendPages B s4.ctx
    runOrchestrator (.ok s1) (.ok s2) (.ok s3) (.ok s4) (.ok s5)

/-! ## test-all-features.js -/

/-- Test 1 `testRegistration`: on `status === 200 && data.success` stores
`data.uniqueId` into `testUniqueId`. -/
def testRegistrationAll (parse : Parse) (B : Backend) (ctx : Ctx) : POut :=
  match makeRequest parse (B (.register "Complete Test Tourist")) with
  | .ok r =>
    if r.status == 200 && r.data.successB then
      ⟨true, { ctx with testUniqueId := r.data.uniqueIdF },
        [.register "Complete Test Tourist"], ["   ✅ Registration: SUCCESS"]⟩
    else
      ⟨false, ctx, [.register "Complete Test Tourist"], ["   ❌ Registration: FAILED"]⟩
  | .error m =>
    ⟨false, ctx, [.register "Complete Test Tourist"], ["   ❌ Registration: ERROR - " ++ m]⟩

/-- Test 2 `testLogin`: `GET /api/tourist/info/:id` (no dependency gate of
its own — the orchestrator gates it on registration). -/
def testLoginAll (parse : Parse) (B : Backend) (ctx : Ctx) : POut :=
  let c := Call.touristInfo (idStr ctx.testUniqueId)
  match makeRequest parse (B c) with
  | .ok r =>
    if r.status == 200 && r.data.successB then ⟨true, ctx, [c], ["   ✅ Login: SUCCESS"]⟩
    else ⟨false, ctx, [c], ["   ❌ Login: FAILED"]⟩
  | .error m => ⟨false, ctx, [c], ["   ❌ Login: ERROR - " ++ m]⟩

/-- Output of `testDocumentUpload`: the resolved boolean, the call, and
whether the temporary upload file `test-passport.txt` still exists on disk
at the moment the promise resolves. -/
structure DocOut where
  ok : Bool
  calls : List Call
  fsTemp : Bool
  deriving Repr, DecidableEq

/-- Test 3 `testDocumentUpload`: `fs.writeFileSync` creates the temporary
file, then `form.submit` runs.  `fs.unlinkSync` sits inside the
`res.on('end')` `try` block after `JSON.parse(body)`: the submit-error
callback resolves without reaching it, and a parse failure jumps to the
`catch (parseError)` which also resolves without reaching it. -/
def testDocumentUploadAll (parse : Parse) (B : Backend) (ctx : Ctx) : DocOut :=
  let c := Call.uploadDocument (idStr ctx.testUniqueId)
  match B c with
  | .err _ => ⟨false, [c], true⟩
  | .ok (_, body) =>
    match parse body with
    | some j => ⟨j.success, [c], false⟩
    | none => ⟨false, [c], true⟩

/-- Test 4 `testDocumentRetrieval`: `status === 200 && data.success`
(both the documents-found and no-documents branches return `true`). -/
def testDocumentRetrievalAll (parse : Parse) (B : Backend) (ctx : Ctx) : POut :=
  let c := Call.documents (idStr ctx.testUniqueId)
  match makeRequest parse (B c) with
  | .ok r =>
    if r.status == 200 && r.data.successB then
      ⟨true, ctx, [c], ["   ✅ Document Retrieval: SUCCESS"]⟩
    else ⟨false, ctx, [c], ["   ❌ Document Retrieval: FAILED"]⟩
  | .error m => ⟨false, ctx, [c], ["   ❌ Document Retrieval: ERROR - " ++ m]⟩

/-- Test 5 `testAuthorityLogin`: on success stores `data.token` into
`authToken`. -/
def testAuthorityLoginAll (parse : Parse) (B : Backend) (ctx : Ctx) : POut :=
  match makeRequest parse (B .authorityLogin) with
  | .ok r =>
    if r.status == 200 && r.data.successB then
      ⟨true, { ctx with authToken := r.data.tokenF },
        [.authorityLogin], ["   ✅ Authority Login: SUCCESS"]⟩
    else ⟨false, ctx, [.authorityLogin], ["   ❌ Authority Login: FAILED"]⟩
  | .error m => ⟨false, ctx, [.authorityLogin], ["   ❌ Authority Login: ERROR - " ++ m]⟩

/-- Test 6 `testTouristVerification` (no gate of its own; the Bearer
header is attached only when `authToken` is truthy). -/
def testTouristVerificationAll (parse : Parse) (B : Backend) (ctx : Ctx) : POut :=
  let tok := if truthy ctx.authToken then ctx.authToken.getD "" else ""
  let c := Call.authorityVerify (idStr ctx.testUniqueId) tok
  match makeRequest parse (B c) with
  | .ok r =>
    if r.status == 200 && r.data.successB then
      ⟨true, ctx, [c], ["   ✅ Tourist Verification: SUCCESS"]⟩
    else ⟨false, ctx, [c], ["   ❌ Tourist Verification: FAILED"]⟩
  | .error m => ⟨false, ctx, [c], ["   ❌ Tourist Verification: ERROR - " ++ m]⟩

/-- Test 7 `testQRCodeGeneration`: `status === 200 && data.success`. -/
def testQRCodeGenerationAll (parse : Parse) (B : Backend) (ctx : Ctx) : POut :=
  let c := Call.qrcode (idStr ctx.testUniqueId)
  match makeRequest parse (B c) with
  | .ok r =>
    if r.status == 200 && r.data.successB then
      ⟨true, ctx, [c], ["   ✅ QR Code Generation: SUCCESS"]⟩
    else ⟨false, ctx, [c], ["   ❌ QR Code Generation: FAILED"]⟩
  | .error m => ⟨false, ctx, [c], ["   ❌ QR Code Generation: ERROR - " ++ m]⟩

/-- Test 8 `testPVCCardGeneration`: only `status === 200`. -/
def testPVCCardGenerationAll (parse : Parse) (B : Backend) (ctx : Ctx) : POut :=
  let c := Call.pvcCard (idStr ctx.testUniqueId)
  match makeRequest parse (B c) with
  | .ok r =>
    if r.status == 200 then ⟨true, ctx, [c], ["   ✅ PVC Card Generation: SUCCESS"]⟩
    else ⟨false, ctx, [c], ["   ❌ PVC Card Generation: FAILED"]⟩
  | .error m => ⟨false, ctx, [c], ["   ❌ PVC Card Generation: ERROR - " ++ m]⟩

/-- Test 9 `testFrontendAccess` of test-all-features.js: a single HTTPS
fetch of `/dashboard-simple.html`, no insecure fallback and no status
check, only the two content keywords. -/
def testFrontendAccessAll (B : Backend) (ctx : Ctx) : POut :=
  let c := Call.page "/dashboard-simple.html" true
  match B c with
  | .ok (_, html) =>
    if containsStr html "Tourist Dashboard" && containsStr html "Document Upload" then
      ⟨true, ctx, [c], ["   ✅ Frontend Access: SUCCESS"]⟩
    else ⟨false, ctx, [c], ["   ❌ Frontend Access: Content incorrect"]⟩
  | .err m => ⟨false, ctx, [c], ["   ❌ Frontend Access: ERROR - " ++ m]⟩

/-- The nine booleans of `runCompleteSystemTest`, all initialised `false`. -/
structure SysReport where
  registration : Bool
  login : Bool
  documentUpload : Bool
  documentRetrieval : Bool
  authorityLogin : Bool
  verification : Bool
  qrCode : Bool
  pvcCard : Bool
  frontend : Bool
  deriving Repr, DecidableEq

/-- Output of `runCompleteSystemTest`. -/
structure SysOut where
  report : SysReport
  ctx : Ctx
  calls : List Call
  fsTemp : Bool
  deriving Repr, DecidableEq

/-- `runCompleteSystemTest`: tests run sequentially; everything after
test 1 is inside `if (results.registration)`, and verification / QR / PVC
are additionally inside `if (results.authorityLogin)`; frontend access
runs whenever registration succeeded. -/
def runCompleteSystemTest (parse : Parse) (B : Backend) : SysOut :=
  let reg := testRegistrationAll parse B {}
  if reg.ok then
    let login := testLoginAll parse B reg.ctx
    let du := testDocumentUploadAll parse B reg.ctx
    let dr := testDocumentRetrievalAll parse B reg.ctx
    let al := testAuthorityLoginAll parse B reg.ctx
    if al.ok then
      let ver := testTouristVerificationAll parse B al.ctx
      let qr := testQRCodeGenerationAll parse B al.ctx
      let pvc := testPVCCardGenerationAll parse B al.ctx
      let fr := testFrontendAccessAll B al.ctx
      ⟨⟨reg.ok, login.ok, du.ok, dr.ok, al.ok, ver.ok, qr.ok, pvc.ok, fr.ok⟩, al.ctx,
        reg.calls ++ login.calls ++ du.calls ++ dr.calls ++ al.calls
          ++ ver.calls ++ qr.calls ++ pvc.calls ++ fr.calls, du.fsTemp⟩
    else
      let fr := testFrontendAccessAll B al.ctx
      ⟨⟨reg.ok, login.ok, du.ok, dr.ok, al.ok, false, false, false, fr.ok⟩, al.ctx,
        reg.calls ++ login.calls ++ du.calls ++ dr.calls ++ al.calls ++ fr.calls, du.fsTemp⟩
  else
    ⟨⟨reg.ok, false, false, false, false, false, false, false, false⟩, reg.ctx,
      reg.calls, false⟩

/-! ## test-complete-flow.js -/

/-- Step 1 `testRegistration` of test-complete-flow.js (its `makeRequest`
rejects on a parse failure; the rejection is caught and recorded as
`false`). -/
def testRegistrationFlow (parse : Parse) (B : Backend) (ctx : Ctx) : POut :=
  let c := Call.register "Test Tourist Flow"
  match makeRequestFlow parse (B c) with
  | .ok r =>
    if r.status == 200 && r.data.success then
      ⟨true, { ctx with testUniqueId := r.data.uniqueId }, [c], ["   ✅ Registration successful"]⟩
    else ⟨false, ctx, [c], ["   ❌ Registration failed"]⟩
  | .error m => ⟨false, ctx, [c], ["   ❌ Registration error: " ++ m]⟩

/-- Step 2 `testInfoRetrieval` of test-complete-flow.js. -/
def testInfoRetrievalFlow (parse : Parse) (B : Backend) (ctx : Ctx) : POut :=
  let c := Call.touristInfo (idStr ctx.testUniqueId)
  match makeRequestFlow parse (B c) with
  | .ok r =>
    if r.status == 200 && r.data.success then
      ⟨true, ctx, [c], ["   ✅ Info retrieval successful"]⟩
    else ⟨false, ctx, [c], ["   ❌ Info retrieval failed"]⟩
  | .error m => ⟨false, ctx, [c], ["   ❌ Info retrieval error: " ++ m]⟩

/-- Step 3 `testFrontendAccess` of test-complete-flow.js: HTTPS first; a
connection error (only) falls back to HTTP on the same path; the content
check (`Tourist Portal` and `Register`, no status check) decides the
outcome of whichever transport responded. -/
def testFrontendAccessFlow (secure insecure : Transport (Nat × String)) (ctx : Ctx) : POut :=
  match secure with
  | .ok (_, html) =>
    if containsStr html "Tourist Portal" && containsStr html "Register" then
      ⟨true, ctx, [.page "/tourist-auth.html" true], ["   ✅ Frontend accessible"]⟩
    else
      ⟨false, ctx, [.page "/tourist-auth.html" true], ["   ❌ Frontend loaded but content incorrect"]⟩
  | .err _ =>
    match insecure with
    | .ok (_, html) =>
      if containsStr html "Tourist Portal" && containsStr html "Register" then
        ⟨true, ctx, [.page "/tourist-auth.html" true, .page "/tourist-auth.html" false],
          ["   ⚠️ HTTPS failed, trying HTTP...", "   ✅ Frontend accessible via HTTP"]⟩
      else
        ⟨false, ctx, [.page "/tourist-auth.html" true, .page "/tourist-auth.html" false],
          ["   ⚠️ HTTPS failed, trying HTTP...", "   ❌ Frontend loaded but content incorrect"]⟩
    | .err m =>
      ⟨false, ctx, [.page "/tourist-auth.html" true, .page "/tourist-auth.html" false],
        ["   ⚠️ HTTPS failed, trying HTTP...", "   ❌ Both HTTPS and HTTP failed: " ++ m]⟩

/-- Output of `runCompleteTest`: `none` for a step the early `return`
prevented from running. -/
structure FlowOut where
  reg : Bool
  info : Option Bool
  front : Option Bool
  calls : List Call
  deriving Repr, DecidableEq

/-- `runCompleteTest`: a failing registration or info-retrieval step logs
`Stopping tests.` and returns; a failing frontend step returns before the
summary. -/
def runCompleteTest (parse : Parse) (B : Backend) : FlowOut :=
  let reg := testRegistrationFlow parse B {}
  if reg.ok then
    let info := testInfoRetrievalFlow parse B reg.ctx
    if info.ok then
      let front := testFrontendAccessFlow (B (.page "/tourist-auth.html" true))
        (B (.page "/tourist-auth.html" false)) reg.ctx
      ⟨reg.ok, some info.ok, some front.ok, reg.calls ++ info.calls ++ front.calls⟩
    else ⟨reg.ok, some info.ok, none, reg.calls ++ info.calls⟩
  else ⟨reg.ok, none, none, reg.calls⟩

/-! ## Concrete fixtures used to evaluate the model -/

/-- A concrete `JSON.parse` on a handful of body strings: registration
payloads with and without a `uniqueId`, a generic success, a generic
failure, a login payload with a token; everything else is malformed. -/
def parseFixture : Parse := fun s =>
  if s == "reg-ok" then some { success := true, uniqueId := some "T1" }
  else if s == "reg-noid" then some { success := true }
  else if s == "ok" then some { success := true }
  else if s == "fail" then some { success := false }
  else if s == "tok-ok" then some { success := true, token := some "K1" }
  else none

/-- A backend that refuses every connection. -/
def backendDown : Backend := fun _ => .err "ECONNREFUSED"

/-- A backend where registration succeeds (issuing id `T1`) but the info
endpoint answers with a well-formed non-success body: the info probe runs
and genuinely fails.  The upload endpoint answers (a non-success body),
so the upload probe resolves and the stage completes. -/
def backendInfoFails : Backend := fun c =>
  match c with
  | .register _ => .ok (200, "reg-ok")
  | .touristInfo _ => .ok (200, "fail")
  | .uploadDocument _ => .ok (200, "fail")
  | _ => .err "ECONNREFUSED"

/-- A backend where registration and the tourist endpoints work but
authority login is rejected (HTTP 401, `success: false`); pages serve the
dashboard keywords; the QR endpoint itself would succeed if called. -/
def backendAuthRejects : Backend := fun c =>
  match c with
  | .register _ => .ok (200, "reg-ok")
  | .touristInfo _ => .ok (200, "ok")
  | .documents _ => .ok (200, "ok")
  | .uploadDocument _ => .ok (200, "ok")
  | .authorityLogin => .ok (401, "fail")
  | .qrcode _ => .ok (200, "ok")
  | .pvcCard _ => .ok (200, "ok")
  | .page _ _ => .ok (200, "x Tourist Dashboard y Document Upload z")
  | _ => .err "ECONNREFUSED"

/-- A backend whose registration endpoint reports success but omits the
`uniqueId` field from the response body. -/
def backendNoId : Backend := fun c =>
  match c with
  | .register _ => .ok (200, "reg-noid")
  | _ => .err "ECONNREFUSED"

/-- A backend whose registration and login responses are well-formed and
carry the issued identifier / token; the upload endpoint answers, so the
core stage completes. -/
def backendWellFormed : Backend := fun c =>
  match c with
  | .register _ => .ok (200, "reg-ok")
  | .authorityLogin => .ok (200, "tok-ok")
  | .uploadDocument _ => .ok (200, "ok")
  | _ => .err "ECONNREFUSED"

/-- Recognises tourist-info calls. -/
def isInfoCall : Call → Bool
  | .touristInfo _ => true
  | _ => false

/-- Recognises QR-code calls. -/
def isQrCall : Call → Bool
  | .qrcode _ => true
  | _ => false

/-- Recognises PVC-card calls. -/
def isPvcCall : Call → Bool
  | .pvcCard _ => true
  | _ => false

/-- Well-formedness of one registration response under a given parser:
if a body was received, parses, and reports success, then it carries an
issued identifier.  (`regRespOk parse (B (.register n)) = true` is the
hypothesis under which the Run Context cannot lose `testUniqueId`.) -/
def regRespOk (parse : Parse) (t : Transport (Nat × String)) : Bool :=
  match t with
  | .err _ => true
  | .ok (_, body) =>
    match parse body with
    | none => true
    | some j => !j.success || j.uniqueId.isSome

/-- Well-formedness of one authority-login response: a successful parsed
body carries a token. -/
def tokRespOk (parse : Parse) (t : Transport (Nat × String)) : Bool :=
  match t with
  | .err _ => true
  | .ok (_, body) =>
    match parse body with
    | none => true
    | some j => !j.success || j.token.isSome

/-- A backend that always answers with a body that does not parse. -/
def backendMalformed : Backend := fun _ => .ok (201, "garbage")

/-! ## Helper lemmas -/

theorem infoRetrievalProbe_skip (parse : Parse) (B : Backend) (ctx : Ctx)
    (h : truthy ctx.testUniqueId = false) :
    infoRetrievalProbe parse B ctx = ⟨false, ctx, [], [skipNoIdLog]⟩ := by
  unfold infoRetrievalProbe
  rw [h]
  rfl

theorem documentUploadProbe_skip (parse : Parse) (B : Backend) (ctx : Ctx)
    (h : truthy ctx.testUniqueId = false) :
    documentUploadProbe parse B ctx = some ⟨false, ctx, [], [skipNoIdLog]⟩ := by
  unfold documentUploadProbe
  rw [h]
  rfl

theorem documentRetrievalProbe_skip (parse : Parse) (B : Backend) (ctx : Ctx)
    (h : truthy ctx.testUniqueId = false) :
    documentRetrievalProbe parse B ctx = ⟨false, ctx, [], [skipNoIdLog]⟩ := by
  unfold documentRetrievalProbe
  rw [h]
  rfl

theorem qrCodeProbe_skip (parse : Parse) (B : Backend) (ctx : Ctx)
    (h : truthy ctx.testUniqueId = false) :
    qrCodeProbe parse B ctx = ⟨false, ctx, [], [skipNoIdLog]⟩ := by
  unfold qrCodeProbe
  rw [h]
  rfl

theorem pvcCardProbe_skip (parse : Parse) (B : Backend) (ctx : Ctx)
    (h : truthy ctx.testUniqueId = false) :
    pvcCardProbe parse B ctx = ⟨false, ctx, [], [skipNoIdLog]⟩ := by
  unfold pvcCardProbe
  rw [h]
  rfl

theorem verificationProbe_skip_noId (parse : Parse) (B : Backend) (ctx : Ctx)
    (h : truthy ctx.testUniqueId = false) :
    verificationProbe parse B ctx = ⟨false, ctx, [], [skipNoAuthLog]⟩ := by
  unfold verificationProbe
  rw [h]
  rfl

theorem verificationProbe_skip_noTok (parse : Parse) (B : Backend) (ctx : Ctx)
    (h : truthy ctx.authToken = false) :
    verificationProbe parse B ctx = ⟨false, ctx, [], [skipNoAuthLog]⟩ := by
  unfold verificationProbe
  rw [h, Bool.and_false]
  rfl

theorem infoRetrievalProbe_ctx (parse : Parse) (B : Backend) (ctx : Ctx) :
    (infoRetrievalProbe parse B ctx).ctx = ctx := by
  unfold infoRetrievalProbe
  try dsimp only
  repeat' split
  all_goals rfl

theorem documentUploadProbe_ctx (parse : Parse) (B : Backend) (ctx : Ctx)
    (r : POut) (h : documentUploadProbe parse B ctx = some r) :
    r.ctx = ctx := by
  unfold documentUploadProbe at h
  dsimp only at h
  repeat' split at h
  all_goals first
    | rw [← Option.some.inj h]
    | simp at h

theorem documentRetrievalProbe_ctx (parse : Parse) (B : Backend) (ctx : Ctx) :
    (documentRetrievalProbe parse B ctx).ctx = ctx := by
  unfold documentRetrievalProbe
  try dsimp only
  repeat' split
  all_goals rfl

theorem pendingListProbe_ctx (parse : Parse) (B : Backend) (ctx : Ctx) :
    (pendingListProbe parse B ctx).ctx = ctx := by
  unfold pendingListProbe
  try dsimp only
  repeat' split
  all_goals rfl

theorem verificationProbe_ctx (parse : Parse) (B : Backend) (ctx : Ctx) :
    (verificationProbe parse B ctx).ctx = ctx := by
  unfold verificationProbe
  try dsimp only
  repeat' split
  all_goals rfl

theorem qrCodeProbe_ctx (parse : Parse) (B : Backend) (ctx : Ctx) :
    (qrCodeProbe parse B ctx).ctx = ctx := by
  unfold qrCodeProbe
  try dsimp only
  repeat' split
  all_goals rfl

theorem pvcCardProbe_ctx (parse : Parse) (B : Backend) (ctx : Ctx) :
    (pvcCardProbe parse B ctx).ctx = ctx := by
  unfold pvcCardProbe
  try dsimp only
  repeat' split
  all_goals rfl

theorem registrationProbe_authToken (parse : Parse) (B : Backend) (ctx : Ctx) :
    (registrationProbe parse B ctx).ctx.authToken = ctx.authToken := by
  unfold registrationProbe
  try dsimp only
  repeat' split
  all_goals rfl

theorem registrationProbe_calls (parse : Parse) (B : Backend) (ctx : Ctx) :
    (registrationProbe parse B ctx).calls = [Call.register "Feature Test Tourist"] := by
  unfold registrationProbe
  try dsimp only
  repeat' split
  all_goals rfl

theorem authorityLoginProbe_testUniqueId (parse : Parse) (B : Backend) (ctx : Ctx) :
    (authorityLoginProbe parse B ctx).ctx.testUniqueId = ctx.testUniqueId := by
  unfold authorityLoginProbe
  try dsimp only
  repeat' split
  all_goals rfl

theorem testCoreFeatures_ctx (parse : Parse) (B : Backend) (ctx : Ctx)
    (r : StageOut CoreReport) (h : testCoreFeatures parse B ctx = some r) :
    r.ctx = (registrationProbe parse B ctx).ctx := by
  unfold testCoreFeatures at h
  dsimp only at h
  revert h
  rcases hd : documentUploadProbe parse B
      (infoRetrievalProbe parse B (registrationProbe parse B ctx).ctx).ctx with _ | r3
  · intro h
    exact absurd h (by simp)
  · intro h
    dsimp only at h
    rw [← Option.some.inj h]
    dsimp only
    rw [documentRetrievalProbe_ctx,
      documentUploadProbe_ctx parse B _ r3 hd, infoRetrievalProbe_ctx]

theorem testAuthorityFeatures_ctx (parse : Parse) (B : Backend) (ctx : Ctx) :
    (testAuthorityFeatures parse B ctx).ctx = (authorityLoginProbe parse B ctx).ctx := by
  unfold testAuthorityFeatures
  simp only [verificationProbe_ctx, pendingListProbe_ctx]

theorem registrationProbe_fail_ctx (parse : Parse) (B : Backend) (ctx : Ctx)
    (h : (registrationProbe parse B ctx).ok = false) :
    (registrationProbe parse B ctx).ctx = ctx := by
  unfold registrationProbe at h ⊢
  revert h
  rcases hm : makeRequest parse (B (.register "Feature Test Tourist")) with m | r
  · intro _
    rfl
  · intro h
    dsimp only at h ⊢
    by_cases hc : ((r.status == 200) && r.data.successB) = true
    · rw [if_pos hc] at h
      simp at h
    · rw [if_neg hc]

theorem registrationProbe_id_mono (parse : Parse) (B : Backend) (ctx : Ctx)
    (hw : regRespOk parse (B (.register "Feature Test Tourist")) = true)
    (hid : ctx.testUniqueId.isSome = true) :
    (registrationProbe parse B ctx).ctx.testUniqueId.isSome = true := by
  unfold regRespOk at hw
  unfold registrationProbe makeRequest
  revert hw
  rcases hm : B (.register "Feature Test Tourist") with ⟨st, body⟩ | m
  · intro hw
    dsimp only at hw ⊢
    revert hw
    rcases hp : parse body with _ | j
    · intro _
      dsimp only
      simp only [RespData.successB, Bool.and_false]
      rw [if_neg (by simp)]
      exact hid
    · intro hw
      dsimp only at hw ⊢
      by_cases hc : ((st == 200) && RespData.successB (.parsed j)) = true
      · rw [if_pos hc]
        have hs : j.success = true := by
          have h2 := (Bool.and_eq_true _ _ ▸ hc).2
          simpa [RespData.successB] using h2
        rcases (Bool.or_eq_true _ _ ▸ hw) with h1 | h2
        · rw [hs] at h1
          simp at h1
        · simpa [RespData.uniqueIdF] using h2
      · rw [if_neg hc]
        exact hid
  · intro _
    dsimp only
    exact hid

theorem authorityLoginProbe_token_mono (parse : Parse) (B : Backend) (ctx : Ctx)
    (hw : tokRespOk parse (B .authorityLogin) = true) :
    ctx.authToken.isSome ≤ (authorityLoginProbe parse B ctx).ctx.authToken.isSome := by
  cases hin : ctx.authToken.isSome
  · exact Bool.false_le _
  · suffices hres : (authorityLoginProbe parse B ctx).ctx.authToken.isSome = true by
      rw [hres]
    unfold tokRespOk at hw
    unfold authorityLoginProbe makeRequest
    revert hw
    rcases hm : B .authorityLogin with ⟨st, body⟩ | m
    · intro hw
      dsimp only at hw ⊢
      revert hw
      rcases hp : parse body with _ | j
      · intro _
        dsimp only
        simp only [RespData.successB, Bool.and_false]
        rw [if_neg (by simp)]
        exact hin
      · intro hw
        dsimp only at hw ⊢
        by_cases hc : ((st == 200) && RespData.successB (.parsed j)) = true
        · rw [if_pos hc]
          have hs : j.success = true := by
            have h2 := (Bool.and_eq_true _ _ ▸ hc).2
            simpa [RespData.successB] using h2
          rcases (Bool.or_eq_true _ _ ▸ hw) with h1 | h2
          · rw [hs] at h1
            simp at h1
          · simpa [RespData.tokenF] using h2
        · rw [if_neg hc]
          exact hin
    · intro _
      dsimp only
      exact hin

theorem testRegistrationAll_calls (parse : Parse) (B : Backend) (ctx : Ctx) :
    (testRegistrationAll parse B ctx).calls = [Call.register "Complete Test Tourist"] := by
  unfold testRegistrationAll
  try dsimp only
  repeat' split
  all_goals rfl

theorem testLoginAll_calls (parse : Parse) (B : Backend) (ctx : Ctx) :
    (testLoginAll parse B ctx).calls = [Call.touristInfo (idStr ctx.testUniqueId)] := by
  unfold testLoginAll
  try dsimp only
  repeat' split
  all_goals rfl

theorem testDocumentUploadAll_calls (parse : Parse) (B : Backend) (ctx : Ctx) :
    (testDocumentUploadAll parse B ctx).calls = [Call.uploadDocument (idStr ctx.testUniqueId)] := by
  unfold testDocumentUploadAll
  try dsimp only
  repeat' split
  all_goals rfl

theorem testDocumentRetrievalAll_calls (parse : Parse) (B : Backend) (ctx : Ctx) :
    (testDocumentRetrievalAll parse B ctx).calls = [Call.documents (idStr ctx.testUniqueId)] := by
  unfold testDocumentRetrievalAll
  try dsimp only
  repeat' split
  all_goals rfl

theorem testAuthorityLoginAll_calls (parse : Parse) (B : Backend) (ctx : Ctx) :
    (testAuthorityLoginAll parse B ctx).calls = [Call.authorityLogin] := by
  unfold testAuthorityLoginAll
  try dsimp only
  repeat' split
  all_goals rfl

theorem testFrontendAccessAll_calls (B : Backend) (ctx : Ctx) :
    (testFrontendAccessAll B ctx).calls = [Call.page "/dashboard-simple.html" true] := by
  unfold testFrontendAccessAll
  try dsimp only
  repeat' split
  all_goals rfl

/-! ## Claim theorems -/

/-- Claim C10: the backend-health probe records a passing outcome for any
received HTTP response regardless of status code (a non-200 status still
records `backend = true`); it records a failing outcome exactly when the
transport itself fails, so a backend returning only error statuses is
still reported healthy. -/
theorem C10_backend_health_any_response_passes (parse : Parse) (B : Backend) (ctx : Ctx) :
    (backendHealthProbe parse B ctx).ok = true ↔ ∃ st body, B .health = .ok (st, body) := by
  rcases hm : B .health with ⟨st, body⟩ | m
  · have hok : (backendHealthProbe parse B ctx).ok = true := by
      unfold backendHealthProbe makeRequest
      rw [hm]
      dsimp only
      rcases hp : parse body with _ | j <;> dsimp only <;> split <;> rfl
    simp only [hok, true_iff]
    exact ⟨st, body, rfl⟩
  · have hko : (backendHealthProbe parse B ctx).ok = false := by
      unfold backendHealthProbe makeRequest
      rw [hm]
    rw [hko]
    constructor
    · intro hfalse
      exact absurd hfalse (by simp)
    · rintro ⟨st, body, hB⟩
      exact absurd hB (by simp)

/-- Claim C8: a probe whose declared dependencies are not all present in
the Run Context returns its skip outcome immediately: no network call is
issued on its behalf (`calls = []`), the Run Context is unchanged, and
only the skip console line is emitted.  This covers the four probes gated
on `testUniqueId` and the verification probe gated on
`testUniqueId && authToken`. -/
theorem C8_dependency_unmet_no_network_call (parse : Parse) (B : Backend) (ctx : Ctx)
    (h : truthy ctx.testUniqueId = false) :
    infoRetrievalProbe parse B ctx = ⟨false, ctx, [], [skipNoIdLog]⟩
  ∧ documentUploadProbe parse B ctx = some ⟨false, ctx, [], [skipNoIdLog]⟩
  ∧ documentRetrievalProbe parse B ctx = ⟨false, ctx, [], [skipNoIdLog]⟩
  ∧ qrCodeProbe parse B ctx = ⟨false, ctx, [], [skipNoIdLog]⟩
  ∧ pvcCardProbe parse B ctx = ⟨false, ctx, [], [skipNoIdLog]⟩
  ∧ verificationProbe parse B ctx = ⟨false, ctx, [], [skipNoAuthLog]⟩ :=
  ⟨infoRetrievalProbe_skip parse B ctx h, documentUploadProbe_skip parse B ctx h,
   documentRetrievalProbe_skip parse B ctx h, qrCodeProbe_skip parse B ctx h,
   pvcCardProbe_skip parse B ctx h, verificationProbe_skip_noId parse B ctx h⟩

/-- Witness for C8 at the initial Run Context (both keys absent). -/
theorem C8_dependency_unmet_no_network_call_witness :
    truthy (Ctx.mk none none).testUniqueId = false
  ∧ infoRetrievalProbe parseFixture backendDown (Ctx.mk none none)
      = ⟨false, Ctx.mk none none, [], [skipNoIdLog]⟩ :=
  ⟨rfl, (C8_dependency_unmet_no_network_call parseFixture backendDown (Ctx.mk none none) rfl).1⟩

/-- Claim C6: page fetches attempt the secure transport first; any
received secure response — whatever its status or content — resolves with
no fallback and no `protocol` mark; a connection-level secure failure
triggers exactly one insecure retry of the same path, recorded as
`protocol: 'HTTP'`; a second connection failure rejects.  At probe level
(`testFrontendAccess` of test-complete-flow.js) the insecure call is
issued exactly when the secure attempt failed at the connection level. -/
theorem C6_secure_first_single_fallback (st : Nat) (d m m2 : String)
    (hT t2 : Transport (Nat × String)) (ctx : Ctx) :
    makeHTTPSRequest (.ok (st, d)) hT = .ok ⟨st, d, none⟩
  ∧ makeHTTPSRequest (.err m) (.ok (st, d)) = .ok ⟨st, d, some "HTTP"⟩
  ∧ makeHTTPSRequest (.err m) (.err m2) = .error m2
  ∧ (testFrontendAccessFlow (.ok (st, d)) t2 ctx).calls = [.page "/tourist-auth.html" true]
  ∧ (testFrontendAccessFlow (.err m) t2 ctx).calls
      = [.page "/tourist-auth.html" true, .page "/tourist-auth.html" false] := by
  refine ⟨rfl, rfl, rfl, ?_, ?_⟩
  · unfold testFrontendAccessFlow
    dsimp only
    split <;> rfl
  · unfold testFrontendAccessFlow
    rcases t2 with ⟨st2, html⟩ | m3
    · dsimp only
      split <;> rfl
    · rfl

/-- Claim C7: a received response whose body fails to decode resolves —
it does not reject in `comprehensive-health-check.js`, and in
`test-complete-flow.js` it rejects with the raw body embedded in the
message, which the probe catch turns into `false`.  The raw body is
preserved (in `data` and `raw`), and the probe records a plain `false`
validation failure with the Run Context untouched. -/
theorem C7_parse_failure_recovered (parse : Parse) (B : Backend) (ctx : Ctx)
    (st : Nat) (body : String)
    (hp : parse body = none) (hB : B (.register "Feature Test Tourist") = .ok (st, body)) :
    makeRequest parse (.ok (st, body)) = .ok ⟨st, .rawStr body, body⟩
  ∧ makeRequestFlow parse (.ok (st, body)) = .error ("Failed to parse response: " ++ body)
  ∧ (registrationProbe parse B ctx).ok = false
  ∧ (registrationProbe parse B ctx).ctx = ctx := by
  have h1 : makeRequest parse (.ok (st, body)) = .ok ⟨st, .rawStr body, body⟩ := by
    unfold makeRequest
    dsimp only
    rw [hp]
  have h2 : makeRequestFlow parse (.ok (st, body))
      = .error ("Failed to parse response: " ++ body) := by
    unfold makeRequestFlow
    dsimp only
    rw [hp]
  have h3 : (registrationProbe parse B ctx).ok = false := by
    unfold registrationProbe
    rw [hB, h1]
    dsimp only
    simp [RespData.successB]
  exact ⟨h1, h2, h3, registrationProbe_fail_ctx parse B ctx h3⟩

/-- Witness for C7 at a backend answering 201 with a malformed body. -/
theorem C7_parse_failure_recovered_witness :
    parseFixture "garbage" = none
  ∧ (registrationProbe parseFixture backendMalformed (Ctx.mk none none)).ok = false :=
  ⟨rfl, (C7_parse_failure_recovered parseFixture backendMalformed (Ctx.mk none none)
    201 "garbage" rfl rfl).2.2.1⟩

/-- Claim C5: for `total > 0`, the tier is EXCELLENT exactly when
`passed/total ≥ 0.8`, GOOD exactly when `0.6 ≤ passed/total < 0.8`, and
NEEDS ATTENTION exactly when `passed/total < 0.6`; both lower boundaries
are inclusive. -/
theorem C5_tier_boundaries (passed total : Nat) (h : 0 < total) :
    (generateTier passed total = "EXCELLENT" ↔ (8 : ℚ) / 10 ≤ (passed : ℚ) / (total : ℚ))
  ∧ (generateTier passed total = "GOOD" ↔
      (6 : ℚ) / 10 ≤ (passed : ℚ) / (total : ℚ) ∧ (passed : ℚ) / (total : ℚ) < (8 : ℚ) / 10)
  ∧ (generateTier passed total = "NEEDS ATTENTION" ↔ (passed : ℚ) / (total : ℚ) < (6 : ℚ) / 10) := by
  have ht : (0 : ℚ) < (total : ℚ) := by exact_mod_cast h
  have h65 : (6 : ℚ) / 10 ≤ (8 : ℚ) / 10 := by norm_num
  have h8 : ((8 : ℚ) / 10 ≤ (passed : ℚ) / (total : ℚ))
      ↔ ((total : ℚ) * (8 / 10) ≤ (passed : ℚ)) := by
    rw [le_div_iff₀ ht, mul_comm]
  have h6 : ((6 : ℚ) / 10 ≤ (passed : ℚ) / (total : ℚ))
      ↔ ((total : ℚ) * (6 / 10) ≤ (passed : ℚ)) := by
    rw [le_div_iff₀ ht, mul_comm]
  unfold generateTier
  by_cases hE : ((total : ℚ) * (8 / 10) ≤ (passed : ℚ))
  · rw [if_pos hE]
    refine ⟨⟨fun _ => h8.mpr hE, fun _ => rfl⟩,
      ⟨fun hq => absurd hq (by decide), fun hq => absurd (h8.mpr hE) (not_le.mpr hq.2)⟩,
      ⟨fun hq => absurd hq (by decide),
       fun hq => absurd (le_trans h65 (h8.mpr hE)) (not_le.mpr hq)⟩⟩
  · rw [if_neg hE]
    by_cases hG : ((total : ℚ) * (6 / 10) ≤ (passed : ℚ))
    · rw [if_pos hG]
      refine ⟨⟨fun hq => absurd hq (by decide), fun hq => absurd (h8.mp hq) hE⟩,
        ⟨fun _ => ⟨h6.mpr hG, not_le.mp (fun hc => hE (h8.mp hc))⟩, fun _ => rfl⟩,
        ⟨fun hq => absurd hq (by decide), fun hq => absurd (h6.mpr hG) (not_le.mpr hq)⟩⟩
    · rw [if_neg hG]
      have hl : (passed : ℚ) / (total : ℚ) < (6 : ℚ) / 10 :=
        not_le.mp (fun hc => hG (h6.mp hc))
      refine ⟨⟨fun hq => absurd hq (by decide),
         fun hq => absurd hq (not_le.mpr (lt_of_lt_of_le hl h65))⟩,
        ⟨fun hq => absurd hq (by decide), fun hq => absurd hq.1 (not_le.mpr hl)⟩,
        ⟨fun _ => hl, fun _ => rfl⟩⟩

/-- Witness for C5 at the inclusive 0.8 boundary: 4 of 5 is EXCELLENT. -/
theorem C5_tier_boundaries_witness :
    0 < 5
  ∧ (generateTier 4 5 = "EXCELLENT" ↔ (8 : ℚ) / 10 ≤ ((4 : ℕ) : ℚ) / ((5 : ℕ) : ℚ)) :=
  ⟨by decide, (C5_tier_boundaries 4 5 (by decide)).1⟩


theorem testRegistrationFlow_calls (parse : Parse) (B : Backend) (ctx : Ctx) :
    (testRegistrationFlow parse B ctx).calls = [Call.register "Test Tourist Flow"] := by
  unfold testRegistrationFlow
  try dsimp only
  repeat' split
  all_goals rfl

/-- Claim C1 as stated fails on the code: the Stage Report stores plain
booleans, so a dependency-skipped probe records the same value `false` as
a genuinely failed one.  Under `backendDown` registration fails, so the
info probe is skipped (no tourist-info call, skip line on the console);
under `backendInfoFails` registration succeeds, the info probe runs and
genuinely fails (one tourist-info call, no skip line), and the upload
endpoint answers, so its probe resolves.  Both runs complete — each
`testCoreFeatures` value is `some` report — and both reports record
`infoRetrieval = false`: the skipped/failed distinction is not preserved
in the report handed to the presentation layer. -/
theorem C1_cex_report_conflates_skip_and_fail :
    (testCoreFeatures parseFixture backendDown (Ctx.mk none none)).map
        (fun r => r.report.infoRetrieval)
      = (testCoreFeatures parseFixture backendInfoFails (Ctx.mk none none)).map
        (fun r => r.report.infoRetrieval)
  ∧ (testCoreFeatures parseFixture backendDown (Ctx.mk none none)).map
        (fun r => r.report.infoRetrieval) = some false
  ∧ (testCoreFeatures parseFixture backendDown (Ctx.mk none none)).map
        (fun r => r.calls.filter isInfoCall) = some []
  ∧ (testCoreFeatures parseFixture backendDown (Ctx.mk none none)).map
        (fun r => r.logs.contains skipNoIdLog) = some true
  ∧ (testCoreFeatures parseFixture backendInfoFails (Ctx.mk none none)).map
        (fun r => r.calls.filter isInfoCall) = some [.touristInfo "T1"]
  ∧ (testCoreFeatures parseFixture backendInfoFails (Ctx.mk none none)).map
        (fun r => r.logs.contains skipNoIdLog) = some false :=
  ⟨rfl, rfl, rfl, rfl, rfl, rfl⟩

/-- Claim C1 amended: a probe whose declared dependency is absent makes no
network call, but its recorded outcome in the Stage Report is the boolean
`false` — the same value a failure records; the skip is visible only in
the transient console line, not in the report.  (When registration fails
the later probes are all skipped, so the stage completes and produces the
report.) -/
theorem C1_amended_skip_recorded_as_false (parse : Parse) (B : Backend)
    (h : (registrationProbe parse B (Ctx.mk none none)).ok = false) :
    (testCoreFeatures parse B (Ctx.mk none none)).map
        (fun r => r.report.infoRetrieval) = some false
  ∧ (testCoreFeatures parse B (Ctx.mk none none)).map
        (fun r => r.calls.filter isInfoCall) = some []
  ∧ (testCoreFeatures parse B (Ctx.mk none none)).map
        (fun r => r.logs.contains skipNoIdLog) = some true := by
  have hctx := registrationProbe_fail_ctx parse B (Ctx.mk none none) h
  have hskip : truthy (Ctx.mk none none).testUniqueId = false := rfl
  unfold testCoreFeatures
  dsimp only
  rw [hctx, infoRetrievalProbe_skip parse B (Ctx.mk none none) hskip]
  dsimp only
  rw [documentUploadProbe_skip parse B (Ctx.mk none none) hskip]
  dsimp only
  rw [documentRetrievalProbe_skip parse B (Ctx.mk none none) hskip]
  dsimp only
  refine ⟨rfl, ?_, ?_⟩
  · rw [registrationProbe_calls]
    rfl
  · simp

/-- Witness for the amended C1 at the all-down backend. -/
theorem C1_amended_skip_recorded_as_false_witness :
    (registrationProbe parseFixture backendDown (Ctx.mk none none)).ok = false
  ∧ (testCoreFeatures parseFixture backendDown (Ctx.mk none none)).map
        (fun r => r.report.infoRetrieval) = some false :=
  ⟨rfl, (C1_amended_skip_recorded_as_false parseFixture backendDown rfl).1⟩

/-- Claim C2 as stated fails on the code: under `backendAuthRejects`,
registration succeeds (the Run Context holds `issuedId = T1`, so the QR
and card probes own declared dependency is satisfied), authority login
fails, and `runCompleteSystemTest` then never issues any QR or PVC call,
recording both as `false` — execution is gated on the sibling
`authorityLogin` result, not only on declared dependencies. -/
theorem C2_cex_qr_skipped_despite_dependency :
    (runCompleteSystemTest parseFixture backendAuthRejects).report.registration = true
  ∧ (runCompleteSystemTest parseFixture backendAuthRejects).ctx.testUniqueId = some "T1"
  ∧ (runCompleteSystemTest parseFixture backendAuthRejects).report.authorityLogin = false
  ∧ (runCompleteSystemTest parseFixture backendAuthRejects).calls.filter isQrCall = []
  ∧ (runCompleteSystemTest parseFixture backendAuthRejects).calls.filter isPvcCall = []
  ∧ (runCompleteSystemTest parseFixture backendAuthRejects).report.qrCode = false := by
  refine ⟨rfl, rfl, rfl, ?_, ?_, rfl⟩ <;> decide

/-- Claim C2 amended: in `runCompleteSystemTest`, a failed registration
stops every later probe (only the registration call is ever issued), and a
failed authority login suppresses the verification/QR/PVC probes even when
`issuedId` is available; in `runCompleteTest` a failed registration stops
the run before the info and frontend steps. -/
theorem C2_amended_sibling_gating (parse : Parse) (B : Backend) :
    ((testRegistrationAll parse B (Ctx.mk none none)).ok = false →
       runCompleteSystemTest parse B
         = ⟨⟨false, false, false, false, false, false, false, false, false⟩,
            (testRegistrationAll parse B (Ctx.mk none none)).ctx,
            [.register "Complete Test Tourist"], false⟩)
  ∧ ((testRegistrationAll parse B (Ctx.mk none none)).ok = true →
     (testAuthorityLoginAll parse B (testRegistrationAll parse B (Ctx.mk none none)).ctx).ok
        = false →
       (runCompleteSystemTest parse B).calls.filter isQrCall = []
     ∧ (runCompleteSystemTest parse B).calls.filter isPvcCall = []
     ∧ (runCompleteSystemTest parse B).report.qrCode = false
     ∧ (runCompleteSystemTest parse B).report.pvcCard = false
     ∧ (runCompleteSystemTest parse B).report.registration = true)
  ∧ ((testRegistrationFlow parse B (Ctx.mk none none)).ok = false →
       runCompleteTest parse B = ⟨false, none, none, [.register "Test Tourist Flow"]⟩) := by
  refine ⟨?_, ?_, ?_⟩
  · intro h1
    unfold runCompleteSystemTest
    dsimp only
    rw [if_neg (by simp [h1]), h1, testRegistrationAll_calls]
  · intro h1 h2
    have hrun : (runCompleteSystemTest parse B).calls
          = (testRegistrationAll parse B (Ctx.mk none none)).calls
            ++ (testLoginAll parse B (testRegistrationAll parse B (Ctx.mk none none)).ctx).calls
            ++ (testDocumentUploadAll parse B
                  (testRegistrationAll parse B (Ctx.mk none none)).ctx).calls
            ++ (testDocumentRetrievalAll parse B
                  (testRegistrationAll parse B (Ctx.mk none none)).ctx).calls
            ++ (testAuthorityLoginAll parse B
                  (testRegistrationAll parse B (Ctx.mk none none)).ctx).calls
            ++ (testFrontendAccessAll B
                  (testAuthorityLoginAll parse B
                    (testRegistrationAll parse B (Ctx.mk none none)).ctx).ctx).calls
        ∧ (runCompleteSystemTest parse B).report.qrCode = false
        ∧ (runCompleteSystemTest parse B).report.pvcCard = false
        ∧ (runCompleteSystemTest parse B).report.registration = true := by
      unfold runCompleteSystemTest
      dsimp only
      rw [if_pos h1, if_neg (by simp [h2])]
      exact ⟨rfl, rfl, rfl, h1⟩
    refine ⟨?_, ?_, hrun.2.1, hrun.2.2.1, hrun.2.2.2⟩
    · rw [hrun.1, testRegistrationAll_calls, testLoginAll_calls, testDocumentUploadAll_calls,
        testDocumentRetrievalAll_calls, testAuthorityLoginAll_calls, testFrontendAccessAll_calls]
      rfl
    · rw [hrun.1, testRegistrationAll_calls, testLoginAll_calls, testDocumentUploadAll_calls,
        testDocumentRetrievalAll_calls, testAuthorityLoginAll_calls, testFrontendAccessAll_calls]
      rfl
  · intro h1
    unfold runCompleteTest
    dsimp only
    rw [if_neg (by simp [h1]), h1, testRegistrationFlow_calls]

/-- Witness for the amended C2: one backend where registration fails and
one where only authority login fails. -/
theorem C2_amended_sibling_gating_witness :
    (runCompleteSystemTest parseFixture backendDown).report.login = false
  ∧ (runCompleteSystemTest parseFixture backendAuthRejects).calls.filter isQrCall = []
  ∧ (runCompleteTest parseFixture backendDown).info = none := by
  refine ⟨?_, ((C2_amended_sibling_gating parseFixture backendAuthRejects).2.1 rfl rfl).1, ?_⟩
  · rw [(C2_amended_sibling_gating parseFixture backendDown).1 rfl]
  · rw [(C2_amended_sibling_gating parseFixture backendDown).2.2 rfl]

/-- Claim C3 as stated fails on the code: if a stage throws after an
earlier stage completed, the orchestrator catch logs a failure line and
produces no Final Report at all — not even a partial one covering the
completed first stage. -/
theorem C3_cex_no_partial_report :
    runOrchestrator
      (.ok ⟨⟨true, true, true, true⟩, Ctx.mk (some "T1") none, [], []⟩)
      (.error "TypeError: x is not a function")
      (.ok ⟨⟨false, false, false⟩, Ctx.mk none none, [], []⟩)
      (.ok ⟨⟨false, false⟩, Ctx.mk none none, [], []⟩)
      (.ok ⟨⟨false, false, false, false, false, false⟩, Ctx.mk none none, [], []⟩) = none := rfl

/-- Claim C3 amended: no fault escapes the orchestrator, but a Final
Report exists exactly when all five stage executions complete without
throwing; any stage fault yields no report. -/
theorem C3_amended_report_iff_all_stages_complete
    (s1 : Except String (StageOut InfraReport)) (s2 : Except String (StageOut CoreReport))
    (s3 : Except String (StageOut AuthReport)) (s4 : Except String (StageOut AdvReport))
    (s5 : Except String (StageOut PagesReport)) :
    (runOrchestrator s1 s2 s3 s4 s5 = none
      ↔ (isOkE s1 && isOkE s2 && isOkE s3 && isOkE s4 && isOkE s5) = false)
  ∧ (∀ r1 r2 r3 r4 r5, s1 = .ok r1 → s2 = .ok r2 → s3 = .ok r3 → s4 = .ok r4 → s5 = .ok r5 →
      runOrchestrator s1 s2 s3 s4 s5
        = some (generateFinalReport r1.report r2.report r3.report r4.report r5.report)) := by
  constructor
  · cases s1 <;> cases s2 <;> cases s3 <;> cases s4 <;> cases s5 <;>
      simp [runOrchestrator, isOkE]
  · rintro r1 r2 r3 r4 r5 rfl rfl rfl rfl rfl
    rfl

/-- Witness for the amended C3 with five completed trivial stages. -/
theorem C3_amended_report_iff_all_stages_complete_witness :
    runOrchestrator
      (.ok ⟨⟨false, false, false, false⟩, Ctx.mk none none, [], []⟩)
      (.ok ⟨⟨false, false, false, false⟩, Ctx.mk none none, [], []⟩)
      (.ok ⟨⟨false, false, false⟩, Ctx.mk none none, [], []⟩)
      (.ok ⟨⟨false, false⟩, Ctx.mk none none, [], []⟩)
      (.ok ⟨⟨false, false, false, false, false, false⟩, Ctx.mk none none, [], []⟩)
      = some (generateFinalReport ⟨false, false, false, false⟩ ⟨false, false, false, false⟩
          ⟨false, false, false⟩ ⟨false, false⟩ ⟨false, false, false, false, false, false⟩) :=
  (C3_amended_report_iff_all_stages_complete _ _ _ _ _).2 _ _ _ _ _ rfl rfl rfl rfl rfl

/-- Claim C4 as stated fails on the code: when the multipart transport
reports an error, `testDocumentUpload` resolves without ever reaching the
`fs.unlinkSync` call, so the temporary upload file still exists when the
probe outcome is returned. -/
theorem C4_cex_temp_file_leaked_on_transport_error :
    (testDocumentUploadAll parseFixture backendDown (Ctx.mk (some "T1") none)).ok = false
  ∧ (testDocumentUploadAll parseFixture backendDown (Ctx.mk (some "T1") none)).fsTemp = true :=
  ⟨rfl, rfl⟩

/-- Claim C4 amended: the temporary upload file is removed exactly on the
paths where a response body was received and parsed (whether or not the
submission was accepted); on a transport error or an unparsable body the
file is left on disk. -/
theorem C4_amended_cleanup_iff_body_parses (parse : Parse) (B : Backend) (ctx : Ctx) :
    (testDocumentUploadAll parse B ctx).fsTemp = false
      ↔ ∃ st body j, B (.uploadDocument (idStr ctx.testUniqueId)) = .ok (st, body)
          ∧ parse body = some j := by
  unfold testDocumentUploadAll
  dsimp only
  rcases hm : B (.uploadDocument (idStr ctx.testUniqueId)) with ⟨st, body⟩ | m
  · try rw [hm]
    try dsimp only
    rcases hp : parse body with _ | j
    · try rw [hp]
      try dsimp only
      constructor
      · intro h
        exact absurd h (by simp)
      · rintro ⟨st2, body2, j2, hB, hp2⟩
        simp only [Transport.ok.injEq, Prod.mk.injEq] at hB
        obtain ⟨rfl, rfl⟩ := hB
        rw [hp] at hp2
        exact absurd hp2 (by simp)
    · try rw [hp]
      try dsimp only
      constructor
      · intro _
        exact ⟨st, body, j, rfl, hp⟩
      · intro _
        rfl
  · try rw [hm]
    try dsimp only
    constructor
    · intro h
      exact absurd h (by simp)
    · rintro ⟨st2, body2, j2, hB, _⟩
      exact absurd hB (by simp)

/-- Claim C9 as stated fails on the code: a registration response that
reports success but omits `uniqueId` overwrites `testUniqueId` with the
absent value, so a Run Context key that was present becomes absent.  The
run completes (the now-absent key makes the remaining probes skip, so the
stage report is produced — `some`). -/
theorem C9_cex_context_key_lost :
    (Ctx.mk (some "A") none).testUniqueId = some "A"
  ∧ (testCoreFeatures parseFixture backendNoId (Ctx.mk (some "A") none)).map
        (fun r => r.report.registration) = some true
  ∧ (testCoreFeatures parseFixture backendNoId (Ctx.mk (some "A") none)).map
        (fun r => r.ctx.testUniqueId) = some none :=
  ⟨rfl, rfl, rfl⟩

/-- Claim C9 amended: provided every successful registration response
carries a `uniqueId` and every successful login response carries a
`token`, the Run Context keys are monotone on every completing run: when
the core stage produces its report, a present `testUniqueId` stays
present and `authToken` is untouched, and across the subsequent authority
stage `testUniqueId` stays present and `authToken` is only ever left
unchanged or set.  (On the upload probe's never-resolving path no later
operation runs at all, so no key is touched there either.) -/
theorem C9_amended_keys_monotone_under_wellformed_responses
    (parse : Parse) (B : Backend) (ctx : Ctx)
    (hreg : regRespOk parse (B (.register "Feature Test Tourist")) = true)
    (htok : tokRespOk parse (B .authorityLogin) = true)
    (hid : ctx.testUniqueId.isSome = true) :
    ∀ r, testCoreFeatures parse B ctx = some r →
      r.ctx.testUniqueId.isSome = true
    ∧ r.ctx.authToken = ctx.authToken
    ∧ (testAuthorityFeatures parse B r.ctx).ctx.testUniqueId.isSome = true
    ∧ ctx.authToken.isSome ≤ (testAuthorityFeatures parse B r.ctx).ctx.authToken.isSome := by
  intro r hr
  have hrc := testCoreFeatures_ctx parse B ctx r hr
  have h1 : r.ctx.testUniqueId.isSome = true := by
    rw [hrc]
    exact registrationProbe_id_mono parse B ctx hreg hid
  have h2 : r.ctx.authToken = ctx.authToken := by
    rw [hrc]
    exact registrationProbe_authToken parse B ctx
  refine ⟨h1, h2, ?_, ?_⟩
  · rw [testAuthorityFeatures_ctx, authorityLoginProbe_testUniqueId]
    exact h1
  · rw [testAuthorityFeatures_ctx]
    calc ctx.authToken.isSome
        = r.ctx.authToken.isSome := by rw [h2]
      _ ≤ _ := authorityLoginProbe_token_mono parse B _ htok

/-- Witness for the amended C9 at a backend whose registration, login and
upload responses are well-formed, so the core stage completes. -/
theorem C9_amended_keys_monotone_witness :
    regRespOk parseFixture (backendWellFormed (.register "Feature Test Tourist")) = true
  ∧ (testCoreFeatures parseFixture backendWellFormed (Ctx.mk (some "A") none)).map
        (fun r => r.ctx.testUniqueId.isSome) = some true := by
  refine ⟨rfl, ?_⟩
  rcases hr : testCoreFeatures parseFixture backendWellFormed (Ctx.mk (some "A") none) with _ | r
  · exact absurd hr (by decide)
  · have hm := (C9_amended_keys_monotone_under_wellformed_responses parseFixture
      backendWellFormed (Ctx.mk (some "A") none) rfl rfl rfl) r hr
    dsimp only [Option.map]
    rw [hm.1]


end Vikranta


